import Mathlib

/-!
Verification development for the fake-news-detector repository.

The definitions below are a shallow embedding of:
- app/agents/fake_news_agent.py, method calculate_verification_score;
- app/services/news_service.py, method search_news;
- app/services/wikipedia_service.py, method get_article_content;
- the parsed-field defaults used by the scoring engine for the output of
  app/services/ai_service.py, method analyze_news_with_rag.

Python dictionaries carrying collector payloads are embedded as structures;
a key that may be absent (set only when the free-text parse succeeded) is an
Option field, and the engine reads it with getD at the default the Python
code passes to dict.get.
-/

namespace FND

/-- Payload of RedditService.analyze_credibility as read by the scoring
engine: keys reddit_results and discussion_count (reddit_service.py
lines 129-157). -/
structure RedditData where
  reddit_results : Bool
  discussion_count : Nat
deriving DecidableEq

/-- A Wikipedia article dictionary as produced by
WikipediaService.get_article_content (wikipedia_service.py lines 69-75);
the scoring engine only reads the length of the list of these. -/
structure WikiArticle where
  title : String
  summary : String
  content : String
  url : String
deriving DecidableEq

/-- A formatted news article dictionary as produced by the three provider
searches in news_service.py (lines 66-76, 120-130, 174-184). -/
structure Article where
  title : String
  description : String
  source : String
  url : String
  published_at : String
  content : String
  api_source : String
deriving DecidableEq

/-- The part of the search_news payload read by the scoring engine:
keys articles_count and sources_count (news_service.py lines 225-229,
fake_news_agent.py lines 182-186). -/
structure NewsData where
  articles_count : Nat
  sources_count : Nat
deriving DecidableEq

/-- The parsed RAG analysis dictionary (ai_service.py lines 342-358).
Each field is set only when the corresponding marker phrase was parsed out
of the model response, hence an Option; the scoring engine reads the fields
with dict.get defaults 0, False and 70 (fake_news_agent.py lines 198, 199
and 232). -/
structure RagAnalysis where
  factual_score : Option Nat
  is_fake : Option Bool
  confidence : Option Int
deriving DecidableEq

/-- The dictionary returned by calculate_verification_score
(fake_news_agent.py lines 246-256). -/
structure VerificationResult where
  verdict : String
  is_fake : Bool
  score : Nat
  confidence : Int
  source_credibility : Nat
  content_consistency : Nat
  fact_verification : Nat
  debug_rag_is_fake : Bool
  debug_rag_factual_score : Nat
deriving DecidableEq

/-- Reddit discussion tier (fake_news_agent.py lines 170-180): when the
reddit_results flag is set, more discussions give a higher tier. -/
def reddit_discussion_score (reddit_data : RedditData) : Nat :=
  if reddit_data.reddit_results then
    if reddit_data.discussion_count > 20 then 15
    else if reddit_data.discussion_count > 10 then 10
    else if reddit_data.discussion_count > 0 then 5
    else 0
  else 0

/-- News-sources part of source credibility (fake_news_agent.py line 182). -/
def news_sources_score (news_data : NewsData) : Nat :=
  min 15 (news_data.sources_count * 3)

/-- Content-consistency tier from the article count (fake_news_agent.py
lines 186-195). -/
def content_consistency_of (articles_count : Nat) : Nat :=
  if articles_count ≥ 5 then 30
  else if articles_count ≥ 3 then 20
  else if articles_count ≥ 1 then 10
  else 0

/-- The factual-score part of fact verification (fake_news_agent.py
line 203). The Python code computes int(factual_score * 0.3) with IEEE
doubles; for every integer factual_score in the documented range 0-100 this
coincides with factual_score * 3 / 10 in exact natural arithmetic
(checked exhaustively over that range), which is the domain the theorems
below use. -/
def rag_score_of (factual_score : Nat) : Nat :=
  factual_score * 3 / 10

/-- Wikipedia tier of fact verification (fake_news_agent.py lines 205-211). -/
def wiki_score_of (wiki_related_articles_count : Nat) : Nat :=
  if wiki_related_articles_count ≥ 3 then 10
  else if wiki_related_articles_count ≥ 1 then 5
  else 0

/-- Final fake decision (fake_news_agent.py lines 222-227): when the LLM
says fake the engine confirms FAKE only below total 60; otherwise it flags
FAKE independently below total 40. -/
def is_fake_final_of (rag_is_fake_from_llm : Bool) (total_score : Nat) : Bool :=
  if rag_is_fake_from_llm then decide (total_score < 60)
  else decide (total_score < 40)

/-- Unclamped confidence reconciliation (fake_news_agent.py lines 235-242). -/
def confidence_raw (is_fake_final rag_is_fake_from_llm : Bool)
    (total_score : Nat) (llm_confidence : Int) : Int :=
  if (is_fake_final && rag_is_fake_from_llm)
      || (!is_fake_final && !rag_is_fake_from_llm) then
    max llm_confidence 75
  else if decide (total_score > 70) && !is_fake_final then
    max (total_score : Int) llm_confidence
  else if decide (total_score < 30) && is_fake_final then
    max (100 - (total_score : Int)) llm_confidence
  else
    min llm_confidence 60

/-- Confidence clamp (fake_news_agent.py line 244). -/
def clamp_confidence (confidence : Int) : Int :=
  min 100 (max 0 confidence)

/-- Embedding of FakeNewsAgent.calculate_verification_score
(fake_news_agent.py lines 140-256), with the title and content arguments
dropped since the Python body never reads them. -/
def calculate_verification_score (reddit_data : RedditData)
    (wiki_articles : List WikiArticle) (news_data : NewsData)
    (rag_analysis : RagAnalysis) : VerificationResult :=
  let source_credibility :=
    reddit_discussion_score reddit_data + news_sources_score news_data
  let content_consistency := content_consistency_of news_data.articles_count
  let rag_factual_score_from_llm := rag_analysis.factual_score.getD 0
  let rag_is_fake_from_llm := rag_analysis.is_fake.getD false
  let fact_verification :=
    rag_score_of rag_factual_score_from_llm + wiki_score_of wiki_articles.length
  let total_score := source_credibility + content_consistency + fact_verification
  let is_fake_final := is_fake_final_of rag_is_fake_from_llm total_score
  let llm_confidence : Int := rag_analysis.confidence.getD 70
  let confidence :=
    clamp_confidence
      (confidence_raw is_fake_final rag_is_fake_from_llm total_score llm_confidence)
  { verdict := if is_fake_final then "FAKE" else "REAL"
    is_fake := is_fake_final
    score := total_score
    confidence := confidence
    source_credibility := source_credibility
    content_consistency := content_consistency
    fact_verification := fact_verification
    debug_rag_is_fake := rag_is_fake_from_llm
    debug_rag_factual_score := rag_factual_score_from_llm }

/-- The dictionary returned by NewsAPIService.search_news
(news_service.py lines 225-229). -/
structure NewsSearchResult where
  articles_count : Nat
  sources_count : Nat
  articles : List Article
deriving DecidableEq

/-- Embedding of NewsAPIService.search_news (news_service.py lines
195-229) after the per-provider calls returned: each configured provider
contributes the list of articles its search returned (its empty-list
fallback on any failure), the lists are concatenated in provider order,
sources_count counts distinct source names, and the returned article list
is capped at the first 20 entries while articles_count stays uncapped. -/
def search_news (provider_results : List (List Article)) : NewsSearchResult :=
  let all_articles := provider_results.flatten
  { articles_count := all_articles.length
    sources_count := (all_articles.map (fun article => article.source)).dedup.length
    articles := all_articles.take 20 }

/-- Outcome of one fetch attempt against the Wikipedia client
(wikipedia_service.py lines 57-91): a page, a DisambiguationError carrying
its suggested option titles, a PageError, or any other exception. -/
inductive FetchOutcome where
  | success (article : WikiArticle)
  | disambiguation (options : List String)
  | page_not_found
  | transient_error
deriving DecidableEq

/-- Whether a fetch outcome is a DisambiguationError. -/
def FetchOutcome.is_disambiguation : FetchOutcome → Bool
  | .disambiguation _ => true
  | _ => false

/-- State of the retry loop in WikipediaService.get_article_content:
either still iterating with the current retry_count and title, or returned
with a result. -/
inductive LoopState where
  | running (retry_count : Nat) (title : String)
  | finished (result : Option WikiArticle)
deriving DecidableEq

/-- Whether the loop has returned. -/
def LoopState.is_finished : LoopState → Bool
  | .finished _ => true
  | .running _ _ => false

/-- One iteration of the while loop of WikipediaService.get_article_content
(wikipedia_service.py lines 55-100), driven by the outcome of the fetch the
iteration performs: success returns the article; a disambiguation with a
first option retries with that option when robust is set (the retry counter
is not touched) and otherwise returns None; page-not-found returns None;
any other error increments the retry counter, and continues after a
2 ** retry_count second backoff only while the counter is below
max_retries. -/
def get_article_step (robust : Bool) (max_retries : Nat)
    (outcome : FetchOutcome) : LoopState → LoopState
  | .finished result => .finished result
  | .running retry_count title =>
    if retry_count < max_retries then
      match outcome with
      | .success article => .finished (some article)
      | .disambiguation options =>
        match options with
        | [] => .finished none
        | first_option :: _ =>
          if robust then .running retry_count first_option else .finished none
      | .page_not_found => .finished none
      | .transient_error =>
        if retry_count + 1 < max_retries then .running (retry_count + 1) title
        else .finished none
    else .finished none

/-- The loop of get_article_content after n iterations: the environment env
gives the fetch outcome of each attempt, starting from retry_count 0 and
the requested title (wikipedia_service.py line 55). -/
def get_article_run (robust : Bool) (max_retries : Nat)
    (env : Nat → FetchOutcome) (title : String) : Nat → LoopState
  | 0 => .running 0 title
  | n + 1 =>
    get_article_step robust max_retries (env n)
      (get_article_run robust max_retries env title n)

/-- A concrete Wikipedia article value used for closed evaluations. -/
def sample_wiki : WikiArticle := ⟨"t", "s", "c", "u"⟩

/-- A concrete news article value used for closed evaluations. -/
def sample_article : Article := ⟨"t", "d", "s", "u", "p", "c", "a"⟩

/-- The parsed RAG result of a model response from which no field could be
extracted: ai_service.py lines 342-356 set the factual_score, verdict,
is_fake and confidence keys only when their marker phrase occurs in the
response, so here every optional field is absent. -/
def unparsed_rag : RagAnalysis := ⟨none, none, none⟩

/-- A fetch environment in which every attempt raises a DisambiguationError
whose first suggested option is the same title again. -/
def all_disambiguation_env : Nat → FetchOutcome :=
  fun _ => .disambiguation ["Alpha"]

/-! Helper lemmas: bounds of the individual tiers and the definitional
projections of calculate_verification_score. -/

theorem reddit_discussion_score_le_fifteen (reddit_data : RedditData) :
    reddit_discussion_score reddit_data ≤ 15 := by
  unfold reddit_discussion_score
  split_ifs <;> omega

theorem news_sources_score_le_fifteen (news_data : NewsData) :
    news_sources_score news_data ≤ 15 := by
  unfold news_sources_score
  omega

theorem content_consistency_of_le_thirty (articles_count : Nat) :
    content_consistency_of articles_count ≤ 30 := by
  unfold content_consistency_of
  split_ifs <;> omega

theorem rag_score_of_le_thirty (factual_score : Nat) (h : factual_score ≤ 100) :
    rag_score_of factual_score ≤ 30 := by
  unfold rag_score_of
  omega

theorem wiki_score_of_le_ten (wiki_count : Nat) :
    wiki_score_of wiki_count ≤ 10 := by
  unfold wiki_score_of
  split_ifs <;> omega

theorem cvs_source_credibility (rd : RedditData) (w : List WikiArticle)
    (nd : NewsData) (rg : RagAnalysis) :
    (calculate_verification_score rd w nd rg).source_credibility
      = reddit_discussion_score rd + news_sources_score nd := rfl

theorem cvs_content_consistency (rd : RedditData) (w : List WikiArticle)
    (nd : NewsData) (rg : RagAnalysis) :
    (calculate_verification_score rd w nd rg).content_consistency
      = content_consistency_of nd.articles_count := rfl

theorem cvs_fact_verification (rd : RedditData) (w : List WikiArticle)
    (nd : NewsData) (rg : RagAnalysis) :
    (calculate_verification_score rd w nd rg).fact_verification
      = rag_score_of (rg.factual_score.getD 0) + wiki_score_of w.length := rfl

theorem cvs_score (rd : RedditData) (w : List WikiArticle)
    (nd : NewsData) (rg : RagAnalysis) :
    (calculate_verification_score rd w nd rg).score
      = reddit_discussion_score rd + news_sources_score nd
        + content_consistency_of nd.articles_count
        + (rag_score_of (rg.factual_score.getD 0) + wiki_score_of w.length) := rfl

theorem cvs_is_fake (rd : RedditData) (w : List WikiArticle)
    (nd : NewsData) (rg : RagAnalysis) :
    (calculate_verification_score rd w nd rg).is_fake
      = is_fake_final_of (rg.is_fake.getD false)
          ((calculate_verification_score rd w nd rg).score) := rfl

theorem cvs_verdict (rd : RedditData) (w : List WikiArticle)
    (nd : NewsData) (rg : RagAnalysis) :
    (calculate_verification_score rd w nd rg).verdict
      = if (calculate_verification_score rd w nd rg).is_fake then "FAKE"
        else "REAL" := rfl

theorem cvs_confidence (rd : RedditData) (w : List WikiArticle)
    (nd : NewsData) (rg : RagAnalysis) :
    (calculate_verification_score rd w nd rg).confidence
      = clamp_confidence
          (confidence_raw ((calculate_verification_score rd w nd rg).is_fake)
            (rg.is_fake.getD false)
            ((calculate_verification_score rd w nd rg).score)
            (rg.confidence.getD 70)) := rfl

theorem verdict_eq_fake_iff (rd : RedditData) (w : List WikiArticle)
    (nd : NewsData) (rg : RagAnalysis) :
    (calculate_verification_score rd w nd rg).verdict = "FAKE"
      ↔ (calculate_verification_score rd w nd rg).is_fake = true := by
  rw [cvs_verdict]
  cases h : (calculate_verification_score rd w nd rg).is_fake <;> simp [h]

theorem verdict_eq_real_iff (rd : RedditData) (w : List WikiArticle)
    (nd : NewsData) (rg : RagAnalysis) :
    (calculate_verification_score rd w nd rg).verdict = "REAL"
      ↔ (calculate_verification_score rd w nd rg).is_fake = false := by
  rw [cvs_verdict]
  cases h : (calculate_verification_score rd w nd rg).is_fake <;> simp [h]

theorem is_fake_characterization (rd : RedditData) (w : List WikiArticle)
    (nd : NewsData) (rg : RagAnalysis) :
    (calculate_verification_score rd w nd rg).is_fake = true
      ↔ ((rg.is_fake.getD false = true
            ∧ (calculate_verification_score rd w nd rg).score < 60)
        ∨ (rg.is_fake.getD false = false
            ∧ (calculate_verification_score rd w nd rg).score < 40)) := by
  rw [cvs_is_fake]
  unfold is_fake_final_of
  cases hb : rg.is_fake.getD false <;> simp [hb]

/-- C1: for every combination of collector outputs the engine returns
verdict FAKE exactly when the AI is_fake flag is true and the total score
is below 60, or the flag is false and the total is below 40; in every
other case the verdict is REAL. In particular, with the AI saying fake a
total of 65 yields REAL and 55 yields FAKE, and with the AI not saying
fake a total of 35 yields FAKE and 45 yields REAL. -/
theorem c1_verdict_reconciliation :
    (∀ (rd : RedditData) (w : List WikiArticle) (nd : NewsData)
        (rg : RagAnalysis),
      ((calculate_verification_score rd w nd rg).verdict = "FAKE"
        ↔ ((rg.is_fake.getD false = true
              ∧ (calculate_verification_score rd w nd rg).score < 60)
          ∨ (rg.is_fake.getD false = false
              ∧ (calculate_verification_score rd w nd rg).score < 40)))
      ∧ ((calculate_verification_score rd w nd rg).verdict = "REAL"
        ↔ ¬ ((rg.is_fake.getD false = true
              ∧ (calculate_verification_score rd w nd rg).score < 60)
          ∨ (rg.is_fake.getD false = false
              ∧ (calculate_verification_score rd w nd rg).score < 40))))
  ∧ ((calculate_verification_score ⟨true, 25⟩ [sample_wiki] ⟨5, 5⟩
        ⟨some 0, some true, some 80⟩).score = 65
    ∧ (calculate_verification_score ⟨true, 25⟩ [sample_wiki] ⟨5, 5⟩
        ⟨some 0, some true, some 80⟩).verdict = "REAL")
  ∧ ((calculate_verification_score ⟨true, 25⟩ [sample_wiki] ⟨3, 5⟩
        ⟨some 0, some true, some 80⟩).score = 55
    ∧ (calculate_verification_score ⟨true, 25⟩ [sample_wiki] ⟨3, 5⟩
        ⟨some 0, some true, some 80⟩).verdict = "FAKE")
  ∧ ((calculate_verification_score ⟨true, 25⟩ [sample_wiki] ⟨0, 5⟩
        ⟨some 0, some false, some 80⟩).score = 35
    ∧ (calculate_verification_score ⟨true, 25⟩ [sample_wiki] ⟨0, 5⟩
        ⟨some 0, some false, some 80⟩).verdict = "FAKE")
  ∧ ((calculate_verification_score ⟨true, 25⟩ [sample_wiki] ⟨1, 5⟩
        ⟨some 0, some false, some 80⟩).score = 45
    ∧ (calculate_verification_score ⟨true, 25⟩ [sample_wiki] ⟨1, 5⟩
        ⟨some 0, some false, some 80⟩).verdict = "REAL") := by
  refine ⟨?_, by decide, by decide, by decide, by decide⟩
  intro rd w nd rg
  constructor
  · rw [verdict_eq_fake_iff, is_fake_characterization]
  · rw [verdict_eq_real_iff, ← is_fake_characterization]
    cases h : (calculate_verification_score rd w nd rg).is_fake <;> simp [h]

/-- C2: for every collector-output combination with a well-formed factual
score (the counts are naturals by construction, matching the nonnegativity
side of the claim), the engine keeps source_credibility within [0,30],
content_consistency within [0,30], fact_verification within [0,40], the
total within [0,100] and the confidence within [0,100]. -/
theorem c2_sub_score_and_confidence_bounds (rd : RedditData)
    (w : List WikiArticle) (nd : NewsData) (rg : RagAnalysis)
    (hfs : rg.factual_score.getD 0 ≤ 100) :
    (calculate_verification_score rd w nd rg).source_credibility ≤ 30
  ∧ (calculate_verification_score rd w nd rg).content_consistency ≤ 30
  ∧ (calculate_verification_score rd w nd rg).fact_verification ≤ 40
  ∧ (calculate_verification_score rd w nd rg).score ≤ 100
  ∧ 0 ≤ (calculate_verification_score rd w nd rg).confidence
  ∧ (calculate_verification_score rd w nd rg).confidence ≤ 100 := by
  have h1 := reddit_discussion_score_le_fifteen rd
  have h2 := news_sources_score_le_fifteen nd
  have h3 := content_consistency_of_le_thirty nd.articles_count
  have h4 := rag_score_of_le_thirty _ hfs
  have h5 := wiki_score_of_le_ten w.length
  refine ⟨?_, ?_, ?_, ?_, ?_, ?_⟩
  · rw [cvs_source_credibility]; omega
  · rw [cvs_content_consistency]; omega
  · rw [cvs_fact_verification]; omega
  · rw [cvs_score]; omega
  · rw [cvs_confidence]; unfold clamp_confidence; omega
  · rw [cvs_confidence]; unfold clamp_confidence; omega

/-- Witness for C2 at a concrete collector combination. -/
theorem c2_sub_score_and_confidence_bounds_witness :
    (calculate_verification_score ⟨true, 25⟩ [sample_wiki] ⟨5, 5⟩
        ⟨some 90, some false, some 80⟩).source_credibility ≤ 30
  ∧ (calculate_verification_score ⟨true, 25⟩ [sample_wiki] ⟨5, 5⟩
        ⟨some 90, some false, some 80⟩).content_consistency ≤ 30
  ∧ (calculate_verification_score ⟨true, 25⟩ [sample_wiki] ⟨5, 5⟩
        ⟨some 90, some false, some 80⟩).fact_verification ≤ 40
  ∧ (calculate_verification_score ⟨true, 25⟩ [sample_wiki] ⟨5, 5⟩
        ⟨some 90, some false, some 80⟩).score ≤ 100
  ∧ 0 ≤ (calculate_verification_score ⟨true, 25⟩ [sample_wiki] ⟨5, 5⟩
        ⟨some 90, some false, some 80⟩).confidence
  ∧ (calculate_verification_score ⟨true, 25⟩ [sample_wiki] ⟨5, 5⟩
        ⟨some 90, some false, some 80⟩).confidence ≤ 100 :=
  c2_sub_score_and_confidence_bounds ⟨true, 25⟩ [sample_wiki] ⟨5, 5⟩
    ⟨some 90, some false, some 80⟩ (by decide)

/-- C4: the high-corroboration scenario — 25 discussions with results, 4
distinct sources, 6 articles, 3 reference articles, factual score 90, AI
not fake — yields source_credibility 27, content_consistency 30, a
factual-score part of 27 plus a reference tier of 10 giving
fact_verification 37, total 94 and verdict REAL, for every AI confidence. -/
theorem c4_high_corroboration_scenario :
    ∀ conf : Option Int,
      (calculate_verification_score ⟨true, 25⟩
          [sample_wiki, sample_wiki, sample_wiki] ⟨6, 4⟩
          ⟨some 90, some false, conf⟩).source_credibility = 27
    ∧ (calculate_verification_score ⟨true, 25⟩
          [sample_wiki, sample_wiki, sample_wiki] ⟨6, 4⟩
          ⟨some 90, some false, conf⟩).content_consistency = 30
    ∧ rag_score_of 90 = 27
    ∧ wiki_score_of 3 = 10
    ∧ (calculate_verification_score ⟨true, 25⟩
          [sample_wiki, sample_wiki, sample_wiki] ⟨6, 4⟩
          ⟨some 90, some false, conf⟩).fact_verification = 37
    ∧ (calculate_verification_score ⟨true, 25⟩
          [sample_wiki, sample_wiki, sample_wiki] ⟨6, 4⟩
          ⟨some 90, some false, conf⟩).score = 94
    ∧ (calculate_verification_score ⟨true, 25⟩
          [sample_wiki, sample_wiki, sample_wiki] ⟨6, 4⟩
          ⟨some 90, some false, conf⟩).verdict = "REAL" := by
  intro conf
  have hfv : (calculate_verification_score ⟨true, 25⟩
      [sample_wiki, sample_wiki, sample_wiki] ⟨6, 4⟩
      ⟨some 90, some false, conf⟩).fact_verification = 37 := by
    show rag_score_of 90 + wiki_score_of 3 = 37
    decide
  have hs : (calculate_verification_score ⟨true, 25⟩
      [sample_wiki, sample_wiki, sample_wiki] ⟨6, 4⟩
      ⟨some 90, some false, conf⟩).score = 94 := by
    show reddit_discussion_score ⟨true, 25⟩ + news_sources_score ⟨6, 4⟩
        + content_consistency_of 6 + (rag_score_of 90 + wiki_score_of 3) = 94
    decide
  have hv : (calculate_verification_score ⟨true, 25⟩
      [sample_wiki, sample_wiki, sample_wiki] ⟨6, 4⟩
      ⟨some 90, some false, conf⟩).verdict = "REAL" := by
    rw [cvs_verdict, cvs_is_fake, hs]
    show (if is_fake_final_of false 94 then "FAKE" else "REAL") = "REAL"
    decide
  exact ⟨rfl, rfl, by decide, by decide, hfv, hs, hv⟩

/-- C9: for every collector-output combination the verdict is the string
FAKE exactly when the is_fake field is true, is the string REAL exactly
when it is false, and is always one of exactly those two strings. -/
theorem c9_verdict_binary :
    ∀ (rd : RedditData) (w : List WikiArticle) (nd : NewsData)
        (rg : RagAnalysis),
      ((calculate_verification_score rd w nd rg).verdict = "FAKE"
        ↔ (calculate_verification_score rd w nd rg).is_fake = true)
    ∧ ((calculate_verification_score rd w nd rg).verdict = "REAL"
        ↔ (calculate_verification_score rd w nd rg).is_fake = false)
    ∧ ((calculate_verification_score rd w nd rg).verdict = "FAKE"
        ∨ (calculate_verification_score rd w nd rg).verdict = "REAL") := by
  intro rd w nd rg
  refine ⟨verdict_eq_fake_iff rd w nd rg, verdict_eq_real_iff rd w nd rg, ?_⟩
  rw [cvs_verdict]
  cases h : (calculate_verification_score rd w nd rg).is_fake <;> simp [h]

/-- C3 counterexample: in the all-empty scenario with factual score 20 and
the AI saying fake, at AI confidence 70 the engine returns confidence 75,
not max(94, AI confidence) = 94 as the claim states: the agreement branch
of fake_news_agent.py line 235 fires before the low-score branch of
line 239 can be reached. -/
theorem c3_confidence_counterexample :
    (calculate_verification_score ⟨false, 0⟩ [] ⟨0, 0⟩
        ⟨some 20, some true, some 70⟩).confidence = 75
  ∧ ¬ (calculate_verification_score ⟨false, 0⟩ [] ⟨0, 0⟩
        ⟨some 20, some true, some 70⟩).confidence = max 94 70 := by
  constructor
  · rw [cvs_confidence, cvs_is_fake]
    have hs : (calculate_verification_score ⟨false, 0⟩ [] ⟨0, 0⟩
        ⟨some 20, some true, some 70⟩).score = 6 := by
      show reddit_discussion_score ⟨false, 0⟩ + news_sources_score ⟨0, 0⟩
          + content_consistency_of 0 + (rag_score_of 20 + wiki_score_of 0) = 6
      decide
    rw [hs]
    show clamp_confidence (confidence_raw (is_fake_final_of true 6) true 6 70) = 75
    decide
  · intro h
    rw [cvs_confidence, cvs_is_fake] at h
    have hs : (calculate_verification_score ⟨false, 0⟩ [] ⟨0, 0⟩
        ⟨some 20, some true, some 70⟩).score = 6 := by
      show reddit_discussion_score ⟨false, 0⟩ + news_sources_score ⟨0, 0⟩
          + content_consistency_of 0 + (rag_score_of 20 + wiki_score_of 0) = 6
      decide
    rw [hs] at h
    revert h
    show ¬ clamp_confidence (confidence_raw (is_fake_final_of true 6) true 6 70)
        = max 94 70
    decide

/-- C3 as amended: in the scenario with no discussions (reddit_results
false), zero news sources, zero news articles, zero reference articles,
AI factual score 20 and the AI saying fake, the engine returns
source_credibility 0, content_consistency 0, fact_verification 6, total 6
and verdict FAKE, and — because the final verdict agrees with the AI flag —
confidence max(AI confidence, 75) for every AI confidence at most 100,
rather than the claimed max(94, AI confidence). -/
theorem c3_all_empty_scenario (conf : Int) (hconf : conf ≤ 100) :
    (calculate_verification_score ⟨false, 0⟩ [] ⟨0, 0⟩
        ⟨some 20, some true, some conf⟩).source_credibility = 0
  ∧ (calculate_verification_score ⟨false, 0⟩ [] ⟨0, 0⟩
        ⟨some 20, some true, some conf⟩).content_consistency = 0
  ∧ (calculate_verification_score ⟨false, 0⟩ [] ⟨0, 0⟩
        ⟨some 20, some true, some conf⟩).fact_verification = 6
  ∧ (calculate_verification_score ⟨false, 0⟩ [] ⟨0, 0⟩
        ⟨some 20, some true, some conf⟩).score = 6
  ∧ (calculate_verification_score ⟨false, 0⟩ [] ⟨0, 0⟩
        ⟨some 20, some true, some conf⟩).verdict = "FAKE"
  ∧ (calculate_verification_score ⟨false, 0⟩ [] ⟨0, 0⟩
        ⟨some 20, some true, some conf⟩).confidence = max conf 75 := by
  have hfv : (calculate_verification_score ⟨false, 0⟩ [] ⟨0, 0⟩
      ⟨some 20, some true, some conf⟩).fact_verification = 6 := by
    show rag_score_of 20 + wiki_score_of 0 = 6
    decide
  have hs : (calculate_verification_score ⟨false, 0⟩ [] ⟨0, 0⟩
      ⟨some 20, some true, some conf⟩).score = 6 := by
    show reddit_discussion_score ⟨false, 0⟩ + news_sources_score ⟨0, 0⟩
        + content_consistency_of 0 + (rag_score_of 20 + wiki_score_of 0) = 6
    decide
  have hv : (calculate_verification_score ⟨false, 0⟩ [] ⟨0, 0⟩
      ⟨some 20, some true, some conf⟩).verdict = "FAKE" := by
    rw [cvs_verdict, cvs_is_fake, hs]
    show (if is_fake_final_of true 6 then "FAKE" else "REAL") = "FAKE"
    decide
  have hc : (calculate_verification_score ⟨false, 0⟩ [] ⟨0, 0⟩
      ⟨some 20, some true, some conf⟩).confidence = max conf 75 := by
    rw [cvs_confidence, cvs_is_fake, hs]
    show clamp_confidence (confidence_raw (is_fake_final_of true 6) true 6 conf)
        = max conf 75
    have hiff : is_fake_final_of true 6 = true := by decide
    rw [hiff]
    show clamp_confidence (max conf 75) = max conf 75
    unfold clamp_confidence
    omega
  exact ⟨rfl, rfl, hfv, hs, hv, hc⟩

/-- Witness for the amended C3 at AI confidence 70. -/
theorem c3_all_empty_scenario_witness :
    (calculate_verification_score ⟨false, 0⟩ [] ⟨0, 0⟩
        ⟨some 20, some true, some 70⟩).score = 6
  ∧ (calculate_verification_score ⟨false, 0⟩ [] ⟨0, 0⟩
        ⟨some 20, some true, some 70⟩).verdict = "FAKE"
  ∧ (calculate_verification_score ⟨false, 0⟩ [] ⟨0, 0⟩
        ⟨some 20, some true, some 70⟩).confidence = max 70 75 :=
  ⟨(c3_all_empty_scenario 70 (by decide)).2.2.2.1,
   (c3_all_empty_scenario 70 (by decide)).2.2.2.2.1,
   (c3_all_empty_scenario 70 (by decide)).2.2.2.2.2⟩

/-- C5: separate monotonicity of the engine — a larger discussion count
(with the reddit_results flag fixed) never lowers source_credibility, a
larger distinct-sources count (with the article count fixed) never lowers
source_credibility, and a larger factual score (within the documented
0-100 range, other AI fields fixed) never lowers fact_verification. -/
theorem c5_monotonicity :
    (∀ (b : Bool) (d1 d2 : Nat) (w : List WikiArticle) (nd : NewsData)
        (rg : RagAnalysis), d1 ≤ d2 →
      (calculate_verification_score ⟨b, d1⟩ w nd rg).source_credibility
        ≤ (calculate_verification_score ⟨b, d2⟩ w nd rg).source_credibility)
  ∧ (∀ (rd : RedditData) (w : List WikiArticle) (a s1 s2 : Nat)
        (rg : RagAnalysis), s1 ≤ s2 →
      (calculate_verification_score rd w ⟨a, s1⟩ rg).source_credibility
        ≤ (calculate_verification_score rd w ⟨a, s2⟩ rg).source_credibility)
  ∧ (∀ (rd : RedditData) (w : List WikiArticle) (nd : NewsData)
        (isf : Option Bool) (cf : Option Int) (f1 f2 : Nat),
        f1 ≤ f2 → f2 ≤ 100 →
      (calculate_verification_score rd w nd ⟨some f1, isf, cf⟩).fact_verification
        ≤ (calculate_verification_score rd w nd ⟨some f2, isf, cf⟩).fact_verification) := by
  refine ⟨?_, ?_, ?_⟩
  · intro b d1 d2 w nd rg h
    rw [cvs_source_credibility, cvs_source_credibility]
    have hm : reddit_discussion_score ⟨b, d1⟩ ≤ reddit_discussion_score ⟨b, d2⟩ := by
      unfold reddit_discussion_score
      cases b <;> simp
      split_ifs <;> omega
    omega
  · intro rd w a s1 s2 rg h
    rw [cvs_source_credibility, cvs_source_credibility]
    have hm : news_sources_score ⟨a, s1⟩ ≤ news_sources_score ⟨a, s2⟩ := by
      unfold news_sources_score
      simp only
      omega
    omega
  · intro rd w nd isf cf f1 f2 h h100
    have hm : rag_score_of f1 ≤ rag_score_of f2 := by
      unfold rag_score_of
      omega
    show rag_score_of ((some f1).getD 0) + wiki_score_of w.length
        ≤ rag_score_of ((some f2).getD 0) + wiki_score_of w.length
    simp only [Option.getD_some]
    omega

/-- Witness for C5 at concrete inputs for each of the three parts. -/
theorem c5_monotonicity_witness :
    ((calculate_verification_score ⟨true, 5⟩ [] ⟨2, 2⟩
        ⟨some 50, some false, some 80⟩).source_credibility
      ≤ (calculate_verification_score ⟨true, 15⟩ [] ⟨2, 2⟩
        ⟨some 50, some false, some 80⟩).source_credibility)
  ∧ ((calculate_verification_score ⟨true, 5⟩ [] ⟨2, 1⟩
        ⟨some 50, some false, some 80⟩).source_credibility
      ≤ (calculate_verification_score ⟨true, 5⟩ [] ⟨2, 4⟩
        ⟨some 50, some false, some 80⟩).source_credibility)
  ∧ ((calculate_verification_score ⟨true, 5⟩ [] ⟨2, 2⟩
        ⟨some 40, some false, some 80⟩).fact_verification
      ≤ (calculate_verification_score ⟨true, 5⟩ [] ⟨2, 2⟩
        ⟨some 90, some false, some 80⟩).fact_verification) :=
  ⟨c5_monotonicity.1 true 5 15 [] ⟨2, 2⟩ ⟨some 50, some false, some 80⟩
      (by decide),
   c5_monotonicity.2.1 ⟨true, 5⟩ [] 2 1 4 ⟨some 50, some false, some 80⟩
      (by decide),
   c5_monotonicity.2.2 ⟨true, 5⟩ [] ⟨2, 2⟩ (some false) (some 80) 40 90
      (by decide) (by decide)⟩

/-- C6 counterexample: when no factual score was parsed out of the model
response (the parsed RAG dictionary has no factual_score key), the scoring
engine reads factual score 0 — the dict.get default at
fake_news_agent.py line 198 — and not 50 as the claim states. -/
theorem c6_factual_default_counterexample :
    (calculate_verification_score ⟨false, 0⟩ [] ⟨0, 0⟩
        unparsed_rag).debug_rag_factual_score = 0
  ∧ ¬ (calculate_verification_score ⟨false, 0⟩ [] ⟨0, 0⟩
        unparsed_rag).debug_rag_factual_score = 50 := by
  constructor
  · rfl
  · intro h
    exact absurd ((rfl :
      (calculate_verification_score ⟨false, 0⟩ [] ⟨0, 0⟩
        unparsed_rag).debug_rag_factual_score = 0) ▸ h) (by decide)

/-- C6 as amended: the free-text parse leaves an unextractable field
absent rather than failing, and for a fully unparsed response the scoring
engine falls back to factual score 0 (not 50), AI-fake flag false (no
UNCERTAIN verdict is injected), and AI confidence 70, for every
combination of the other collector outputs. -/
theorem c6_unparsed_defaults :
    ∀ (rd : RedditData) (w : List WikiArticle) (nd : NewsData),
      (calculate_verification_score rd w nd unparsed_rag).debug_rag_factual_score
        = 0
    ∧ (calculate_verification_score rd w nd unparsed_rag).debug_rag_is_fake
        = false
    ∧ (calculate_verification_score rd w nd unparsed_rag).fact_verification
        = wiki_score_of w.length
    ∧ (calculate_verification_score rd w nd unparsed_rag).confidence
        = clamp_confidence
            (confidence_raw
              ((calculate_verification_score rd w nd unparsed_rag).is_fake)
              false
              ((calculate_verification_score rd w nd unparsed_rag).score) 70) := by
  intro rd w nd
  refine ⟨rfl, rfl, ?_, rfl⟩
  rw [cvs_fact_verification]
  show rag_score_of 0 + wiki_score_of w.length = wiki_score_of w.length
  rw [show rag_score_of 0 = 0 from rfl, Nat.zero_add]

theorem get_article_step_keeps_finished (robust : Bool) (max_retries : Nat)
    (outcome : FetchOutcome) (s : LoopState)
    (h : s.is_finished = true) :
    (get_article_step robust max_retries outcome s).is_finished = true := by
  cases s with
  | finished r => rfl
  | running r t => simp [LoopState.is_finished] at h

/-- C7 counterexample: with the default configuration (WIKIPEDIA_ROBUST
true, MAX_WIKIPEDIA_RETRIES 3, config.py lines 28 and 31) and a fetch
environment in which every attempt raises a DisambiguationError with a
first suggested option, the retrieval loop of get_article_content never
returns: the disambiguation branch (wikipedia_service.py lines 77-84)
replaces the title without touching the retry counter, so the number of
fetch attempts for the candidate is not bounded. -/
theorem c7_unbounded_disambiguation_counterexample :
    ¬ ∃ n, (get_article_run true 3 all_disambiguation_env "Topic" n).is_finished
        = true := by
  have key : ∀ n, ∃ t,
      get_article_run true 3 all_disambiguation_env "Topic" n
        = .running 0 t := by
    intro n
    induction n with
    | zero => exact ⟨"Topic", rfl⟩
    | succ n ih =>
      obtain ⟨t, ht⟩ := ih
      refine ⟨"Alpha", ?_⟩
      show get_article_step true 3 (all_disambiguation_env n)
          (get_article_run true 3 all_disambiguation_env "Topic" n)
        = .running 0 "Alpha"
      rw [ht]
      rfl
  rintro ⟨n, hn⟩
  obtain ⟨t, ht⟩ := key n
  rw [ht] at hn
  simp [LoopState.is_finished] at hn

/-- C7 as amended: per-candidate retrieval terminates with a bounded
number of fetch attempts whenever the robust-disambiguation path cannot
recur — that is, when WIKIPEDIA_ROBUST is disabled or the environment
never raises a disambiguation — because not-found drops the candidate
immediately and transient errors retry at most MAX_WIKIPEDIA_RETRIES
times; with WIKIPEDIA_ROBUST enabled (the default) a chain of
disambiguation outcomes is followed without bound, so the attempt count
is not bounded in general. -/
theorem c7_attempts_bounded_without_disambiguation :
    ∀ (robust : Bool) (max_retries : Nat) (env : Nat → FetchOutcome)
        (title : String),
      (robust = false ∨ ∀ n, (env n).is_disambiguation = false) →
      (get_article_run robust max_retries env title
          (max_retries + 1)).is_finished = true := by
  intro robust max_retries env title hnd
  have inv : ∀ n,
      (get_article_run robust max_retries env title n).is_finished = true
      ∨ (get_article_run robust max_retries env title n = .running n title
          ∧ n ≤ max_retries) := by
    intro n
    induction n with
    | zero => exact Or.inr ⟨rfl, Nat.zero_le _⟩
    | succ n ih =>
      have hstep : get_article_run robust max_retries env title (n + 1)
          = get_article_step robust max_retries (env n)
              (get_article_run robust max_retries env title n) := rfl
      rcases ih with hfin | ⟨hrun, hle⟩
      · exact Or.inl (hstep ▸ get_article_step_keeps_finished robust max_retries
          (env n) _ hfin)
      · rw [hstep, hrun]
        by_cases hlt : n < max_retries
        · cases ho : env n with
          | success article =>
            left
            simp [get_article_step, hlt, LoopState.is_finished]
          | page_not_found =>
            left
            simp [get_article_step, hlt, LoopState.is_finished]
          | transient_error =>
            by_cases hlt2 : n + 1 < max_retries
            · right
              refine ⟨?_, by omega⟩
              simp [get_article_step, hlt, hlt2]
            · left
              simp [get_article_step, hlt, hlt2, LoopState.is_finished]
          | disambiguation options =>
            rcases hnd with hrob | hninv
            · subst hrob
              left
              cases options <;>
                simp [get_article_step, hlt, LoopState.is_finished]
            · exfalso
              have hd := hninv n
              rw [ho] at hd
              simp [FetchOutcome.is_disambiguation] at hd
        · left
          simp [get_article_step, hlt, LoopState.is_finished]
  rcases inv (max_retries + 1) with h | ⟨_, hle⟩
  · exact h
  · omega

/-- Witness for the amended C7: robust disabled, three retries, an
environment of nothing but transient errors. -/
theorem c7_attempts_bounded_witness :
    (get_article_run false 3 (fun _ => FetchOutcome.transient_error) "T"
        4).is_finished = true :=
  c7_attempts_bounded_without_disambiguation false 3
    (fun _ => FetchOutcome.transient_error) "T" (Or.inl rfl)

/-- C8: a provider that fails contributes its empty-list fallback, and the
combined search result — articles_count, sources_count and the returned
article list — is exactly what the remaining providers alone produce, for
every set of provider outcomes and every position of the failed provider. -/
theorem c8_provider_fault_isolation :
    ∀ (results_before results_after : List (List Article)),
      search_news (results_before ++ [[]] ++ results_after)
        = search_news (results_before ++ results_after) := by
  intro l1 l2
  have h : (l1 ++ [[]] ++ l2).flatten = (l1 ++ l2).flatten := by
    simp [List.flatten_append]
  show ({ articles_count := (l1 ++ [[]] ++ l2).flatten.length,
          sources_count := ((l1 ++ [[]] ++ l2).flatten.map
            (fun article : Article => article.source)).dedup.length,
          articles := (l1 ++ [[]] ++ l2).flatten.take 20 } : NewsSearchResult)
      = { articles_count := (l1 ++ l2).flatten.length,
          sources_count := ((l1 ++ l2).flatten.map
            (fun article : Article => article.source)).dedup.length,
          articles := (l1 ++ l2).flatten.take 20 }
  rw [h]

/-- C10: articles_count of the news search is the uncapped number of
merged articles, so whenever the providers return more than 20 articles in
total it strictly exceeds the length of the returned (20-capped) article
list, and the content_consistency sub-score is the tier of this uncapped
count. -/
theorem c10_uncapped_articles_count :
    ∀ provider_results : List (List Article),
      20 < provider_results.flatten.length →
      (search_news provider_results).articles_count
          = provider_results.flatten.length
            ∧ (search_news provider_results).articles.length = 20
            ∧ (search_news provider_results).articles.length
                < (search_news provider_results).articles_count
            ∧ ∀ (rd : RedditData) (w : List WikiArticle) (rg : RagAnalysis),
                (calculate_verification_score rd w
                    ⟨(search_news provider_results).articles_count,
                      (search_news provider_results).sources_count⟩
                    rg).content_consistency
                  = content_consistency_of provider_results.flatten.length := by
  intro rs h
  have h1 : (search_news rs).articles_count = rs.flatten.length := rfl
  have h2 : (search_news rs).articles.length = 20 := by
    show (rs.flatten.take 20).length = 20
    rw [List.length_take]
    omega
  refine ⟨h1, h2, ?_, ?_⟩
  · rw [h1, h2]
    exact h
  · intro rd w rg
    rw [cvs_content_consistency]
    show content_consistency_of (search_news rs).articles_count
        = content_consistency_of rs.flatten.length
    rw [h1]

/-- Witness for C10: a single provider returning 21 articles. -/
theorem c10_uncapped_articles_count_witness :
    (search_news [List.replicate 21 sample_article]).articles.length
      < (search_news [List.replicate 21 sample_article]).articles_count :=
  ((c10_uncapped_articles_count [List.replicate 21 sample_article])
      (by decide)).2.2.1

end FND
